import Mathlib

/-!
# Verification of the opencode-autopilot-council debate engine

Shallow embedding of the council's debate-and-consensus engine
(`SupervisorCouncil.debate`, `SupervisorCouncil.parseVote` in
`src/types/index.ts`, the concatenated council source) and of the
orchestration loop's guidance dispatch (`SessionManager.processSessionLoop`
in `src/session-manager.ts`).

Conventions of the embedding:
* JavaScript strings are Lean `String`s; `toUpperCase`, `includes`,
  word-boundary regex tests and `substring` are modelled character-wise
  over `String.data` (`List Char`), matching the ASCII behaviour the
  source relies on.
* JavaScript numbers used in the tally (`approvals / votes.length`,
  `consensusThreshold || 0.5`) are modelled as exact rationals `ℚ`; every
  comparison the claims exercise involves small integer ratios that are
  exact in IEEE doubles as well.
* A supervisor's `chat` call that may throw is modelled as an
  `Option String` oracle (`none` = the call threw, caught by the
  surrounding `try/catch`); the opinion and deliberation rounds only feed
  the prompt transcript handed to that oracle and produce no other
  observable effect on the returned `CouncilDecision`.
-/

namespace Council

/-! ## Vote Interpreter (`SupervisorCouncil.parseVote`) -/

/-- JS `\w` word-character class `[A-Za-z0-9_]` (ASCII), used by the
word-boundary `\b` assertions in `parseVote`'s regexes. -/
def jsWordChar (c : Char) : Bool :=
  c.isAlpha || c.isDigit || c == '_'

/-- JS `String.prototype.includes`: `jsIncludes s sub` is true iff `sub`
occurs contiguously in `s` (the empty needle always matches). -/
def jsIncludes (s sub : List Char) : Bool :=
  match s with
  | [] => sub.isEmpty
  | c :: t => sub.isPrefixOf (c :: t) || jsIncludes t sub

/-- A whole-word occurrence of `w` starting at the head of `s`: `w` is a
prefix and the character after it (if any) is not a word character.
(The boundary *before* the occurrence is handled by the scanner.) -/
def wordHere (s w : List Char) : Bool :=
  w.isPrefixOf s &&
    (match s.drop w.length with
     | [] => true
     | c :: _ => !jsWordChar c)

/-- Scan `s` for a whole-word occurrence of `w`; `prevW` records whether
the character preceding the current position is a word character (so
`\b` holds at the current position iff `!prevW`, since every lexicon
word starts with a word character). -/
def scanWord (prevW : Bool) (s w : List Char) : Bool :=
  match s with
  | [] => false
  | c :: t => (!prevW && wordHere (c :: t) w) || scanWord (jsWordChar c) t w

/-- `/\b(w1|w2|...)\b/.test s`: some alternative has a whole-word
occurrence somewhere in `s`. -/
def testWords (s : List Char) (ws : List (List Char)) : Bool :=
  ws.any (fun w => scanWord false s w)

/-- Approve lexicon of `parseVote`'s regex
`/\b(APPROVE|APPROVED|ACCEPT|ACCEPTED|LGTM)\b/`. -/
def approveWords : List (List Char) :=
  ["APPROVE".data, "APPROVED".data, "ACCEPT".data, "ACCEPTED".data, "LGTM".data]

/-- Reject lexicon of `parseVote`'s regex `/\b(REJECT|REJECTED|DENY|DENIED)\b/`. -/
def rejectWords : List (List Char) :=
  ["REJECT".data, "REJECTED".data, "DENY".data, "DENIED".data]

/-- `response.toUpperCase()` (character-wise ASCII uppercasing). -/
def jsUpper (s : String) : List Char :=
  s.data.map Char.toUpper

/-- `SupervisorCouncil.parseVote`: explicit `VOTE:` markers win, then the
one-sided whole-word lexicon scan, then the conservative reject default. -/
def parseVote (response : String) : Bool :=
  let normalized := jsUpper response
  if jsIncludes normalized ("VOTE: APPROVE".data) || jsIncludes normalized ("VOTE:APPROVE".data) then
    true
  else if jsIncludes normalized ("VOTE: REJECT".data) || jsIncludes normalized ("VOTE:REJECT".data) then
    false
  else
    let approveMatch := testWords normalized approveWords
    let rejectMatch := testWords normalized rejectWords
    if approveMatch && !rejectMatch then true
    else if rejectMatch && !approveMatch then false
    else false

/-- The text contains an explicit approve marker (case-insensitive), i.e.
`parseVote`'s first guard fires. -/
def hasApproveMarker (s : String) : Bool :=
  jsIncludes (jsUpper s) ("VOTE: APPROVE".data) || jsIncludes (jsUpper s) ("VOTE:APPROVE".data)

/-- The text contains an explicit reject marker (case-insensitive), i.e.
`parseVote`'s second guard fires. -/
def hasRejectMarker (s : String) : Bool :=
  jsIncludes (jsUpper s) ("VOTE: REJECT".data) || jsIncludes (jsUpper s) ("VOTE:REJECT".data)

/-- Case-insensitive whole-word containment of `w` in `s` (the reading of
"contains _w_ as a whole word" used by the spec's safety property). -/
def containsWholeWord (s w : String) : Bool :=
  scanWord false (jsUpper s) (jsUpper w)

/-! ## Debate engine (`SupervisorCouncil.debate`) -/

/-- One entry of `CouncilDecision['votes']`. -/
structure Vote where
  supervisor : String
  approved : Bool
  comment : String
deriving Repr, DecidableEq

/-- The `CouncilDecision` returned by `debate`. -/
structure CouncilDecision where
  approved : Bool
  reasoning : String
  votes : List Vote
  consensus : ℚ
deriving Repr

/-- The parts of `CouncilConfig` that `debate` reads (the supervisor list
itself is represented by the `AdvisorRun` roster below). `Option` models
a field absent from the JSON config (`undefined`). -/
structure CouncilConfig where
  debateRounds : Option Nat
  consensusThreshold : Option ℚ
deriving Repr

/-- One configured supervisor together with the oracle outcomes of its
network calls during this debate: `available` is the result of
`isAvailable()` (credential presence), and `finalResponse` is the result
of its final-vote `chat` call (`none` = the call threw and was caught). -/
structure AdvisorRun where
  name : String
  available : Bool
  finalResponse : Option String
deriving Repr, DecidableEq

/-- `getAvailableSupervisors`: the availability-filtered roster snapshot
taken at debate start. -/
def getAvailableSupervisors (supervisors : List AdvisorRun) : List AdvisorRun :=
  supervisors.filter (fun a => a.available)

/-- The final-voting loop body: a successful `chat` response is parsed by
`parseVote` and recorded verbatim as the comment; a thrown call is caught
and recorded as a default-reject vote with the fixed comment
`"Failed to vote"`. -/
def castVote (a : AdvisorRun) : Vote :=
  match a.finalResponse with
  | some response => { supervisor := a.name, approved := parseVote response, comment := response }
  | none => { supervisor := a.name, approved := false, comment := "Failed to vote" }

/-- JS `x || d` on the numeric config field: `0` (and an absent field) is
falsy and falls back to the default. -/
def jsOrQ (o : Option ℚ) (d : ℚ) : ℚ :=
  match o with
  | some t => if t = 0 then d else t
  | none => d

/-- `generateConsensusReasoning`: counts plus per-vote excerpts truncated
to 200 characters. -/
def generateConsensusReasoning (votes : List Vote) (approved : Bool) : String :=
  let approvals := (votes.filter (fun v => v.approved)).length
  let rejections := votes.length - approvals
  let head := "After " ++ toString votes.length ++ " supervisor votes, " ++
    (if approved then
      "the council has reached consensus to APPROVE this task ("
     else
      "the council has decided to REJECT this task (") ++
    toString approvals ++ " approvals, " ++ toString rejections ++ " rejections)." ++
    "\n\nKey points from the debate:\n"
  votes.foldl
    (fun acc v => acc ++ "\n- " ++ v.supervisor ++ ": " ++ String.mk (v.comment.data.take 200) ++ "...")
    head

/-- `const approvals = votes.filter(v => v.approved).length`. -/
def countApprovals (votes : List Vote) : Nat :=
  (votes.filter (fun v => v.approved)).length

/-- `const consensus = votes.length > 0 ? approvals / votes.length : 0`. -/
def consensusOf (votes : List Vote) : ℚ :=
  if votes.length > 0 then (countApprovals votes : ℚ) / (votes.length : ℚ) else 0

/-- The tally section of `debate` (final votes through the returned
decision): consensus ratio over cast votes, `consensusThreshold || 0.5`,
and `approved = consensus >= threshold`. -/
def tally (cfg : CouncilConfig) (available : List AdvisorRun) : CouncilDecision :=
  let votes := available.map castVote
  let approved : Bool := decide (jsOrQ cfg.consensusThreshold (1 / 2) ≤ consensusOf votes)
  { approved := approved
    reasoning := generateConsensusReasoning votes approved
    votes := votes
    consensus := consensusOf votes }

/-- The one terminal failure of `debate`:
`throw new Error('No supervisors are available')`. -/
inductive DebateError where
  | noSupervisorsAvailable
deriving Repr, DecidableEq

/-- `SupervisorCouncil.debate`: snapshot the available roster, fail if it
is empty, otherwise run the rounds (which only build the prompt
transcript consumed by each advisor's `finalResponse` oracle) and tally
the final votes. -/
def debate (cfg : CouncilConfig) (supervisors : List AdvisorRun) :
    Except DebateError CouncilDecision :=
  let available := getAvailableSupervisors supervisors
  if available.length = 0 then
    Except.error DebateError.noSupervisorsAvailable
  else
    Except.ok (tally cfg available)

/-- The decision of a completed (non-failed) debate; the default is never
reached when the available roster is non-empty. -/
def debateOk (cfg : CouncilConfig) (supervisors : List AdvisorRun) : CouncilDecision :=
  (debate cfg supervisors).toOption.getD
    { approved := false, reasoning := "", votes := [], consensus := 0 }

end Council

namespace Loop

/-! ## Orchestration loop (`SessionManager.processSessionLoop`)

One tick of the monitoring loop over one watched external session. The
external session's message history is the only state the tick reads to
decide whether to debate (the `Session` record holds no last-processed
marker — its fields are id/path/port/status/process/client/council/logs/
lastCheck/git info). The council's `discuss` result is modelled as an
oracle `Guidance` value, and `Math.random()`'s draw as an arbitrary
`pick : Nat` reduced modulo the pool size. -/

/-- Message roles of the external session history. -/
inductive Role where
  | user
  | assistant
  | system
deriving Repr, DecidableEq

/-- One message of the external session history (its text part). -/
structure Msg where
  role : Role
  text : String
deriving Repr, DecidableEq

/-- The council config fields the tick reads
(`enabled`, `smartPilot`, `fallbackMessages`). -/
structure LoopConfig where
  enabled : Bool
  smartPilot : Bool
  fallbackMessages : List String
deriving Repr, DecidableEq

/-- The result of `council.discuss(context)` (an oracle for this tick). -/
structure Guidance where
  approved : Bool
  feedback : String
  suggestedNextSteps : List String
deriving Repr, DecidableEq

/-- `currentGoal`: the text of the most recent `user` message (falling
back to `"Unknown Goal"` when its text part is missing/empty), or
`"Review project state"` when no user message exists. -/
def currentGoal (history : List Msg) : String :=
  match history.reverse.find? (fun m => m.role == Role.user) with
  | some m => if m.text = "" then "Unknown Goal" else m.text
  | none => "Review project state"

/-- The structured guidance template sent when Smart Pilot is on (the
template literal, after `.trim()`). It always starts with `"## "`. -/
def structuredGuidance (g : Guidance) : String :=
  "## Council Guidance\n**Approved:** " ++ (if g.approved then "Yes" else "No") ++
    "\n\n**Feedback:**\n" ++ g.feedback ++
    "\n\n**Suggested Next Steps:**\n" ++
    String.intercalate "\n" (g.suggestedNextSteps.map (fun s => "- " ++ s)) ++
    "\n\n*Please proceed with the next step.*"

/-- `fallbackMessages[Math.floor(Math.random() * fallbackMessages.length)]`,
with the random draw modelled by an arbitrary `pick` reduced mod the
length. -/
def pickFallback (pool : List String) (pick : Nat) : String :=
  pool.getD (pick % pool.length) ""

/-- The tick dispatches a debate (`council.discuss`) iff the history is
non-empty and its newest message's role is `assistant`. -/
def tickDispatch (history : List Msg) : Bool :=
  match history.getLast? with
  | some m => m.role == Role.assistant
  | none => false

/-- The guidance-selection logic run after the debate:
returns the sent text (`none` = nothing sent) and whether the
"no guidance generated, skipping" log line was emitted. An
`enabled === false` config returns silently (no send, no skip log). -/
def tickOutcome (cfg : LoopConfig) (g : Guidance) (pick : Nat) : Option String × Bool :=
  if cfg.enabled = false then (none, false)
  else
    let t1 :=
      if (!cfg.smartPilot || !g.approved) && !cfg.fallbackMessages.isEmpty then
        pickFallback cfg.fallbackMessages pick
      else ""
    let t2 := if cfg.smartPilot && t1 = "" then structuredGuidance g else t1
    if t2 = "" then (none, true) else (some t2, false)

/-- The text a full tick posts back to the external session, if any:
nothing when no debate was dispatched, otherwise the guidance-selection
outcome. -/
def tickSent (cfg : LoopConfig) (g : Guidance) (pick : Nat) (history : List Msg) :
    Option String :=
  if tickDispatch history then (tickOutcome cfg g pick).1 else none

/-- The external session's history after the tick, assuming the external
agent is idle in between: posting guidance appends it as a `user`
message; a tick that sends nothing leaves the history unchanged. -/
def nextHistory (cfg : LoopConfig) (g : Guidance) (pick : Nat) (history : List Msg) :
    List Msg :=
  match tickSent cfg g pick history with
  | some t => history ++ [{ role := Role.user, text := t }]
  | none => history

end Loop

/-! ## Concrete instances used by witnesses and counterexamples -/

namespace Council

/-- A config with the default threshold 0.5 configured explicitly. -/
def cfgHalf : CouncilConfig := { debateRounds := some 2, consensusThreshold := some (1 / 2) }

/-- A config whose consensus threshold is the falsy value `0`. -/
def cfgZero : CouncilConfig := { debateRounds := some 2, consensusThreshold := some 0 }

/-- Advisor `A` of the spec scenario: responds `"I approve this"`
(no explicit marker) at the final vote. -/
def advApproveText : AdvisorRun := { name := "A", available := true, finalResponse := some "I approve this" }

/-- Advisor `B` of the spec scenario: its final-vote call throws. -/
def advFails : AdvisorRun := { name := "B", available := true, finalResponse := none }

/-- An advisor excluded from the roster by the availability check. -/
def advUnavailable : AdvisorRun := { name := "U", available := false, finalResponse := some "VOTE: REJECT" }

/-- An available advisor that votes an explicit reject. -/
def advReject : AdvisorRun := { name := "R", available := true, finalResponse := some "VOTE: REJECT" }

/-- Four advisors, two approving and two rejecting: the exact-boundary
2-of-4 consensus case. -/
def boundaryRoster : List AdvisorRun :=
  [{ name := "A", available := true, finalResponse := some "VOTE: APPROVE" },
   { name := "B", available := true, finalResponse := some "VOTE: APPROVE" },
   { name := "C", available := true, finalResponse := some "VOTE: REJECT" },
   { name := "D", available := true, finalResponse := some "VOTE: REJECT" }]

end Council

namespace Loop

/-- Council enabled, Smart Pilot off, empty fallback pool: the skip
scenario of the spec. -/
def cfgSkip : LoopConfig := { enabled := true, smartPilot := false, fallbackMessages := [] }

/-- Council enabled, Smart Pilot on, empty fallback pool. -/
def cfgSmartOnly : LoopConfig := { enabled := true, smartPilot := true, fallbackMessages := [] }

/-- Council enabled, Smart Pilot off, a one-message fallback pool. -/
def cfgFallback : LoopConfig := { enabled := true, smartPilot := false, fallbackMessages := ["Keep going."] }

/-- A rejected council decision used as the tick's `discuss` oracle. -/
def gRej : Guidance := { approved := false, feedback := "needs work", suggestedNextSteps := [] }

/-- A history whose newest message is an unanswered assistant turn. -/
def hAB : List Msg := [{ role := Role.user, text := "hi" }, { role := Role.assistant, text := "done" }]

end Loop

/-! ## Claims under test, as stated -/

namespace Council

/-- Claim C5 as stated: any input containing both `"approve"` and
`"reject"` as whole words, or neither, or empty, interprets as reject. -/
def ambiguousRejectClaim : Prop :=
  ∀ s : String,
    ((containsWholeWord s "approve" = true ∧ containsWholeWord s "reject" = true) ∨
     (containsWholeWord s "approve" = false ∧ containsWholeWord s "reject" = false) ∨
     s = "") →
    parseVote s = false

end Council

namespace Loop

/-- Claim C8 as stated, instantiated on consecutive ticks with an idle
external agent: if a tick debates the newest unanswered assistant turn
and the next tick debates it again, the first tick must at least have
posted its injected message (a round-trip of a message that was never
sent is impossible, so the claim implies this). -/
def noDoubleDebateClaim : Prop :=
  ∀ (cfg : LoopConfig) (g : Guidance) (pick : Nat) (history : List Msg),
    tickDispatch history = true →
    tickDispatch (nextHistory cfg g pick history) = true →
    tickSent cfg g pick history ≠ none

/-- Claim C9 as stated: when autonomous guidance is off or the decision
was rejected, the outbound text is the randomly picked fallback message
(pool non-empty); when neither the autonomous-guidance path (which per
the claim yields text only for an enabled mode and an approved decision)
nor the fallback path yields text, nothing is sent and the skip is
logged. -/
def fallbackSelectionClaim : Prop :=
  ∀ (cfg : LoopConfig) (g : Guidance) (pick : Nat),
    cfg.enabled = true →
    (((cfg.smartPilot = false ∨ g.approved = false) ∧ cfg.fallbackMessages ≠ []) →
        (tickOutcome cfg g pick).1 = some (pickFallback cfg.fallbackMessages pick)) ∧
    ((¬(cfg.smartPilot = true ∧ g.approved = true) ∧
      ¬((cfg.smartPilot = false ∨ g.approved = false) ∧ cfg.fallbackMessages ≠ [])) →
        (tickOutcome cfg g pick).1 = none ∧ (tickOutcome cfg g pick).2 = true)

end Loop

/-! ## Helper lemmas -/

namespace Council

lemma debate_ok_of_ne (cfg : CouncilConfig) (sup : List AdvisorRun)
    (h : getAvailableSupervisors sup ≠ []) :
    debate cfg sup = Except.ok (tally cfg (getAvailableSupervisors sup)) := by
  unfold debate
  rw [if_neg]
  simpa using h

lemma debateOk_eq (cfg : CouncilConfig) (sup : List AdvisorRun)
    (h : getAvailableSupervisors sup ≠ []) :
    debateOk cfg sup = tally cfg (getAvailableSupervisors sup) := by
  unfold debateOk
  rw [debate_ok_of_ne cfg sup h]
  rfl

lemma tally_votes (cfg : CouncilConfig) (av : List AdvisorRun) :
    (tally cfg av).votes = av.map castVote := rfl

lemma tally_consensus (cfg : CouncilConfig) (av : List AdvisorRun) :
    (tally cfg av).consensus = consensusOf (av.map castVote) := rfl

lemma tally_approved (cfg : CouncilConfig) (av : List AdvisorRun) :
    (tally cfg av).approved
      = decide (jsOrQ cfg.consensusThreshold (1 / 2) ≤ consensusOf (av.map castVote)) := rfl

lemma castVote_supervisor (a : AdvisorRun) : (castVote a).supervisor = a.name := by
  unfold castVote
  cases a.finalResponse <;> rfl

lemma countApprovals_le (votes : List Vote) : countApprovals votes ≤ votes.length :=
  List.length_filter_le _ votes

lemma consensusOf_nonneg (votes : List Vote) : 0 ≤ consensusOf votes := by
  unfold consensusOf
  split
  · positivity
  · exact le_refl 0

lemma consensusOf_le_one (votes : List Vote) : consensusOf votes ≤ 1 := by
  unfold consensusOf
  split
  · rw [div_le_one (by positivity)]
    exact_mod_cast countApprovals_le votes
  · exact zero_le_one

end Council

/-! ## Claim theorems -/

namespace Council

/-- C1: a completed debate over a roster with at least one available
advisor produces exactly one Vote per advisor available at debate start —
positionally, the vote list's supervisors are the available roster's
names — so the vote list length equals the roster size no matter how many
final-vote calls failed. -/
theorem debate_one_vote_per_available_advisor (cfg : CouncilConfig) (sup : List AdvisorRun)
    (h : getAvailableSupervisors sup ≠ []) :
    debate cfg sup = Except.ok (debateOk cfg sup) ∧
    (debateOk cfg sup).votes.length = (getAvailableSupervisors sup).length ∧
    (debateOk cfg sup).votes.map (fun v => v.supervisor)
      = (getAvailableSupervisors sup).map (fun a => a.name) := by
  rw [debateOk_eq cfg sup h]
  refine ⟨debate_ok_of_ne cfg sup h, ?_, ?_⟩
  · rw [tally_votes, List.length_map]
  · rw [tally_votes, List.map_map]
    exact List.map_congr_left (fun a _ => castVote_supervisor a)

/-- C1 witness: roster `[A, B]`, both available, `B`'s final-vote call
throwing — the vote list still has exactly the two entries `A`, `B`. -/
theorem debate_one_vote_per_available_advisor_witness :
    (debateOk cfgHalf [advApproveText, advFails]).votes.map (fun v => v.supervisor)
      = ["A", "B"] := by
  have h := debate_one_vote_per_available_advisor cfgHalf [advApproveText, advFails] (by decide)
  rw [h.2.2]
  decide

/-- C3: a completed debate's consensus is the number of approved votes
divided by the number of cast votes; the cast votes are exactly the
availability-filtered roster (so an unavailable configured advisor never
enters the denominator), and the ratio lies in `[0, 1]`. -/
theorem debate_consensus_is_cast_vote_ratio (cfg : CouncilConfig) (sup : List AdvisorRun)
    (h : getAvailableSupervisors sup ≠ []) :
    (debateOk cfg sup).consensus
      = (countApprovals (debateOk cfg sup).votes : ℚ) / ((debateOk cfg sup).votes.length : ℚ) ∧
    (debateOk cfg sup).votes.length = (getAvailableSupervisors sup).length ∧
    0 ≤ (debateOk cfg sup).consensus ∧ (debateOk cfg sup).consensus ≤ 1 := by
  rw [debateOk_eq cfg sup h, tally_consensus, tally_votes]
  refine ⟨?_, by rw [List.length_map], consensusOf_nonneg _, consensusOf_le_one _⟩
  unfold consensusOf
  rw [if_pos]
  simpa [List.length_pos] using h

/-- C3 witness: a configured roster of three advisors with one
unavailable — the decision's two cast votes (not the configured three)
form the denominator, and the bounds hold. -/
theorem debate_consensus_is_cast_vote_ratio_witness :
    (debateOk cfgHalf [advApproveText, advUnavailable, advFails]).consensus
        = (countApprovals (debateOk cfgHalf [advApproveText, advUnavailable, advFails]).votes : ℚ)
          / ((debateOk cfgHalf [advApproveText, advUnavailable, advFails]).votes.length : ℚ) ∧
      (debateOk cfgHalf [advApproveText, advUnavailable, advFails]).votes.length
        = (getAvailableSupervisors [advApproveText, advUnavailable, advFails]).length ∧
      0 ≤ (debateOk cfgHalf [advApproveText, advUnavailable, advFails]).consensus ∧
      (debateOk cfgHalf [advApproveText, advUnavailable, advFails]).consensus ≤ 1 :=
  debate_consensus_is_cast_vote_ratio cfgHalf [advApproveText, advUnavailable, advFails] (by decide)

/-- C4: the debate returns a Decision exactly when the snapshot of
available advisors at debate start is non-empty, and fails with the
terminal `NoAdvisorsAvailable` error exactly when that snapshot is
empty. -/
theorem debate_decision_iff_advisors_available (cfg : CouncilConfig) (sup : List AdvisorRun) :
    (debate cfg sup = Except.error DebateError.noSupervisorsAvailable
        ↔ getAvailableSupervisors sup = []) ∧
    (getAvailableSupervisors sup ≠ [] → debate cfg sup = Except.ok (debateOk cfg sup)) := by
  constructor
  · constructor
    · intro he
      by_contra hne
      rw [debate_ok_of_ne cfg sup hne] at he
      exact Except.noConfusion he
    · intro hnil
      unfold debate
      rw [if_pos]
      rw [hnil]
      rfl
  · intro hne
    rw [debateOk_eq cfg sup hne]
    exact debate_ok_of_ne cfg sup hne

/-- C4 witness: a roster whose only advisor is unavailable fails with
`NoAdvisorsAvailable`; a roster whose only available advisor's final-vote
call throws still returns a Decision. -/
theorem debate_decision_iff_advisors_available_witness :
    debate cfgHalf [advUnavailable] = Except.error DebateError.noSupervisorsAvailable ∧
    debate cfgHalf [advFails] = Except.ok (debateOk cfgHalf [advFails]) :=
  ⟨(debate_decision_iff_advisors_available cfgHalf [advUnavailable]).1.mpr (by decide),
   (debate_decision_iff_advisors_available cfgHalf [advFails]).2 (by decide)⟩

end Council

namespace Council

/-- C2 counterexample: with the consensus threshold *configured* as `0`
and a single rejecting advisor, the debate completes with
`consensus = 0`, which satisfies `consensus >= 0` (the configured
threshold), yet the decision is **not** approved — so
`approved == (consensus >= threshold)` fails for the configured
threshold value `0`. -/
theorem debate_approved_config_threshold_cex :
    cfgZero.consensusThreshold = some 0 ∧
    (debateOk cfgZero [advReject]).consensus = 0 ∧
    (0 : ℚ) ≤ (debateOk cfgZero [advReject]).consensus ∧
    (debateOk cfgZero [advReject]).approved = false := by
  have hav : getAvailableSupervisors [advReject] = [advReject] := by decide
  have hcons : (debateOk cfgZero [advReject]).consensus = 0 := by
    rw [debateOk_eq cfgZero [advReject] (by decide), tally_consensus, hav]
    have hc : countApprovals ([advReject].map castVote) = 0 := by decide
    have hl : ([advReject].map castVote).length = 1 := by decide
    unfold consensusOf
    rw [hc, hl]
    norm_num
  refine ⟨rfl, hcons, by rw [hcons], ?_⟩
  rw [debateOk_eq cfgZero [advReject] (by decide), tally_approved, hav]
  have : consensusOf ([advReject].map castVote) = 0 := by
    rw [debateOk_eq cfgZero [advReject] (by decide), tally_consensus, hav] at hcons
    exact hcons
  rw [this]
  norm_num [cfgZero, jsOrQ]

/-- C2 amended: for every completed debate, `approved` equals
`consensus >= t` for the *effective* threshold `t`, which is the
configured value except that a configured `0` (a JS-falsy number) and an
absent configuration both fall back to the default `0.5`; the
exact-equality boundary approves. The effective threshold is a pure
function of the config fixed at debate start. -/
theorem debate_approved_iff_effective_threshold (cfg : CouncilConfig) (sup : List AdvisorRun)
    (h : getAvailableSupervisors sup ≠ []) :
    ((debateOk cfg sup).approved = true
      ↔ jsOrQ cfg.consensusThreshold (1 / 2) ≤ (debateOk cfg sup).consensus) := by
  rw [debateOk_eq cfg sup h, tally_approved, tally_consensus]
  exact decide_eq_true_iff

/-- C2 amended witness: the exact-equality boundary — 2 approvals out of
4 votes with threshold 0.5 — yields an approved decision. -/
theorem debate_approved_iff_effective_threshold_witness :
    (debateOk cfgHalf boundaryRoster).approved = true := by
  rw [debate_approved_iff_effective_threshold cfgHalf boundaryRoster (by decide)]
  have hav : getAvailableSupervisors boundaryRoster = boundaryRoster := by decide
  rw [debateOk_eq cfgHalf boundaryRoster (by decide), tally_consensus, hav]
  have hc : countApprovals (boundaryRoster.map castVote) = 2 := by decide
  have hl : (boundaryRoster.map castVote).length = 4 := by decide
  unfold consensusOf
  rw [hc, hl]
  norm_num [cfgHalf, jsOrQ]

end Council

namespace Council

/-- C10: a configured `consensusThreshold` of `0` is falsy under the
source's `this.config.consensusThreshold || 0.5`, so the tally runs
against the default threshold `0.5`: the decision is approved iff
`consensus >= 0.5`, and an all-rejections debate is not approved even
though its consensus (like every consensus ratio) satisfies
`consensus >= 0`. -/
theorem debate_zero_threshold_defaults_to_half (cfg : CouncilConfig) (sup : List AdvisorRun)
    (h0 : cfg.consensusThreshold = some 0) (h : getAvailableSupervisors sup ≠ []) :
    ((debateOk cfg sup).approved = true ↔ (1 / 2 : ℚ) ≤ (debateOk cfg sup).consensus) ∧
    (0 : ℚ) ≤ (debateOk cfg sup).consensus ∧
    ((∀ v ∈ (debateOk cfg sup).votes, v.approved = false) →
      (debateOk cfg sup).approved = false) := by
  rw [debateOk_eq cfg sup h, tally_approved, tally_consensus, tally_votes, h0]
  have hthr : jsOrQ (some 0) (1 / 2) = (1 / 2 : ℚ) := by
    simp [jsOrQ]
  rw [hthr]
  refine ⟨decide_eq_true_iff, consensusOf_nonneg _, ?_⟩
  intro hall
  have hzero : countApprovals ((getAvailableSupervisors sup).map castVote) = 0 := by
    unfold countApprovals
    rw [List.filter_eq_nil_iff.mpr, List.length_nil]
    intro v hv
    simp [hall v hv]
  have hcons : consensusOf ((getAvailableSupervisors sup).map castVote) = 0 := by
    unfold consensusOf
    rw [hzero]
    split <;> norm_num
  rw [hcons]
  norm_num

/-- C10 witness: threshold configured `0`, one advisor voting an explicit
reject — the decision is not approved. -/
theorem debate_zero_threshold_defaults_to_half_witness :
    (debateOk cfgZero [advReject]).approved = false := by
  have h := debate_zero_threshold_defaults_to_half cfgZero [advReject] rfl (by decide)
  refine h.2.2 ?_
  rw [debateOk_eq cfgZero [advReject] (by decide), tally_votes]
  decide

end Council

namespace Council

/-- C5 counterexample: the claim as stated is false. The input `"LGTM"`
contains neither `"approve"` nor `"reject"` as a whole word, yet the
interpreter returns approve, because the one-sided lexicon scan also
accepts ACCEPT/ACCEPTED/LGTM (and the claim also ignores that an
explicit `VOTE: APPROVE` marker beats a whole-word `reject` elsewhere in
the text). -/
theorem parseVote_ambiguous_claim_false : ¬ambiguousRejectClaim := by
  intro hcl
  have h := hcl "LGTM" (Or.inr (Or.inl (by decide)))
  exact absurd h (by decide)

/-- C5 amended: for input without an explicit vote marker, whenever the
approve-lexicon scan and the reject-lexicon scan agree (both matched or —
as for the empty input — neither matched), the verdict is reject; such
ambiguous input never yields approve. -/
theorem parseVote_no_marker_ambiguous_rejects (s : String)
    (ha : hasApproveMarker s = false) (hr : hasRejectMarker s = false)
    (hx : testWords (jsUpper s) approveWords = testWords (jsUpper s) rejectWords) :
    parseVote s = false := by
  unfold parseVote
  unfold hasApproveMarker at ha
  unfold hasRejectMarker at hr
  simp only [ha, hr, hx, Bool.false_eq_true, if_false]
  cases h : testWords (jsUpper s) rejectWords <;> simp

/-- C5 amended witness: `"approve reject"` (no marker, both lexicons
matched) interprets as reject. -/
theorem parseVote_no_marker_ambiguous_rejects_witness :
    parseVote "approve reject" = false :=
  parseVote_no_marker_ambiguous_rejects "approve reject" (by decide) (by decide) (by decide)

/-- C6: an explicit case-insensitive marker (`VOTE: APPROVE` /
`VOTE:APPROVE`, else `VOTE: REJECT` / `VOTE:REJECT`) determines the
verdict outright for every input text, overriding the lexicon scan of
the rest of the text (an approve marker is checked first and wins even
over a present reject marker). -/
theorem parseVote_marker_overrides (s : String) :
    (hasApproveMarker s = true → parseVote s = true) ∧
    (hasApproveMarker s = false → hasRejectMarker s = true → parseVote s = false) := by
  constructor
  · intro ha
    unfold hasApproveMarker at ha
    unfold parseVote
    simp only [ha, if_true]
  · intro ha hr
    unfold hasApproveMarker at ha
    unfold hasRejectMarker at hr
    unfold parseVote
    simp only [ha, hr, Bool.false_eq_true, if_false, if_true]

/-- C6 witness: the marker decides even when the rest of the text
word-matches the opposite lexicon, in both directions and against
lowercase markers. -/
theorem parseVote_marker_overrides_witness :
    parseVote "Some reasons to reject, but vote: approve" = true ∧
    parseVote "I approve the effort, yet VOTE: REJECT" = false :=
  ⟨(parseVote_marker_overrides "Some reasons to reject, but vote: approve").1 (by decide),
   (parseVote_marker_overrides "I approve the effort, yet VOTE: REJECT").2 (by decide) (by decide)⟩

end Council

namespace Council

/-- C7 counterexample: in the exact scenario of the claim — roster
`[A, B]`, `A` responding `"I approve this"` (no explicit marker), `B`'s
final-vote call throwing — the recorded votes are
`[(A, approved), (B, rejected)]` with consensus `0.5` as claimed, but the
default rationale recorded for `B` is the source's literal
`"Failed to vote"`, not the claimed `"failed to vote"`. -/
theorem debate_failed_vote_rationale_cex :
    (debateOk cfgHalf [advApproveText, advFails]).votes.map (fun v => (v.supervisor, v.approved, v.comment))
      = [("A", true, "I approve this"), ("B", false, "Failed to vote")] ∧
    ("Failed to vote" : String) ≠ "failed to vote" ∧
    (debateOk cfgHalf [advApproveText, advFails]).consensus = 1 / 2 := by
  have hav : getAvailableSupervisors [advApproveText, advFails] = [advApproveText, advFails] := by
    decide
  refine ⟨?_, by decide, ?_⟩
  · rw [debateOk_eq cfgHalf [advApproveText, advFails] (by decide), tally_votes, hav]
    decide
  · rw [debateOk_eq cfgHalf [advApproveText, advFails] (by decide), tally_consensus, hav]
    have hc : countApprovals ([advApproveText, advFails].map castVote) = 1 := by decide
    have hl : ([advApproveText, advFails].map castVote).length = 2 := by decide
    unfold consensusOf
    rw [hc, hl]
    norm_num

/-- C7 amended: every advisor whose final-vote call fails is recorded as
exactly one Vote with `approved = false` and the fixed rationale
`"Failed to vote"` (capital F in the source); the decision's vote list is
the availability-filtered roster's votes in roster order. -/
theorem debate_failed_vote_default (cfg : CouncilConfig) (sup : List AdvisorRun)
    (h : getAvailableSupervisors sup ≠ []) :
    (debateOk cfg sup).votes = (getAvailableSupervisors sup).map castVote ∧
    ∀ a : AdvisorRun, a.finalResponse = none →
      castVote a = { supervisor := a.name, approved := false, comment := "Failed to vote" } := by
  refine ⟨by rw [debateOk_eq cfg sup h, tally_votes], ?_⟩
  intro a hn
  unfold castVote
  rw [hn]

/-- C7 amended witness: the scenario roster `[A, B]` — `B`'s failed call
becomes the single default-reject vote with rationale
`"Failed to vote"`. -/
theorem debate_failed_vote_default_witness :
    castVote advFails = { supervisor := "B", approved := false, comment := "Failed to vote" } :=
  (debate_failed_vote_default cfgHalf [advApproveText, advFails] (by decide)).2 advFails rfl

end Council

namespace Loop

lemma structuredGuidance_ne_empty (g : Guidance) : structuredGuidance g ≠ "" := by
  intro h
  have := congrArg String.data h
  rw [structuredGuidance] at this
  simp [String.data_append] at this

/-- C8 counterexample: the claim is false. With the council enabled,
Smart Pilot off and an empty fallback pool, a tick over the history
`[user, assistant]` dispatches a debate, sends nothing (so no injected
message exists, let alone one that round-tripped, and the history is
unchanged), and the very next tick dispatches a second debate for the
same unanswered assistant turn. Nothing suppresses it: the `Session`
record keeps no last-processed-message marker (the source comment reads
"In a real app, we'd track the last processed message ID"), only an
in-tick 10-second sleep. -/
theorem no_double_debate_claim_false : ¬noDoubleDebateClaim := by
  intro hcl
  have h := hcl cfgSkip gRej 0 hAB (by decide) (by decide)
  exact absurd h (by decide)

/-- C8 amended: duplicate suppression exists only on the sending path,
and works by message position rather than by a marker: when a tick posts
guidance, the injected message becomes the newest history entry with
role `user`, so the next tick's newest-message-role check dispatches no
debate until the assistant replies; a tick that sends nothing leaves the
history unchanged, and the same unanswered turn is re-debated on the
next tick. -/
theorem sent_guidance_suppresses_redebate (cfg : LoopConfig) (g : Guidance) (pick : Nat)
    (history : List Msg) :
    (∀ t, tickSent cfg g pick history = some t →
      tickDispatch (nextHistory cfg g pick history) = false) ∧
    (tickSent cfg g pick history = none → nextHistory cfg g pick history = history) := by
  constructor
  · intro t ht
    unfold nextHistory
    rw [ht]
    unfold tickDispatch
    rw [List.getLast?_concat]
    rfl
  · intro hn
    unfold nextHistory
    rw [hn]

/-- C8 amended witness: with a one-message fallback pool the tick over
`[user, assistant]` posts that message, and the next tick does not
dispatch a debate. -/
theorem sent_guidance_suppresses_redebate_witness :
    tickDispatch (nextHistory cfgFallback gRej 0 hAB) = false :=
  (sent_guidance_suppresses_redebate cfgFallback gRej 0 hAB).1 "Keep going." (by decide)

/-- C9 counterexample: the claim is false. With the council enabled,
autonomous guidance (Smart Pilot) on, the Decision rejected and the
fallback pool empty, neither the claim's autonomous-guidance path (which
requires an approved Decision) nor the fallback path yields text — yet
the tick does not skip: it sends the synthesized structured guidance
(marked not-approved). -/
theorem fallback_selection_claim_false : ¬fallbackSelectionClaim := by
  intro hcl
  have h := (hcl cfgSmartOnly gRej 0 rfl).2 (by decide)
  exact absurd h.1 (by decide)

/-- C9 amended: with the council enabled, a tick's outbound text is
characterized by: if autonomous-guidance mode is off or the Decision was
rejected, and the randomly picked fallback message exists and is
non-empty, that message is sent; otherwise the structured guidance is
sent whenever autonomous-guidance mode is on (even for a rejected
Decision); otherwise nothing is sent — and the skip log line is emitted
exactly when nothing is sent (the tick returns normally, no error
state). -/
theorem tick_guidance_characterization (cfg : LoopConfig) (g : Guidance) (pick : Nat)
    (he : cfg.enabled = true) :
    (tickOutcome cfg g pick).1 =
      (if (cfg.smartPilot = false ∨ g.approved = false) ∧ cfg.fallbackMessages ≠ [] ∧
          pickFallback cfg.fallbackMessages pick ≠ "" then
        some (pickFallback cfg.fallbackMessages pick)
      else if cfg.smartPilot = true then some (structuredGuidance g)
      else none) ∧
    ((tickOutcome cfg g pick).2 = true ↔ (tickOutcome cfg g pick).1 = none) := by
  unfold tickOutcome
  rw [he]
  cases hsp : cfg.smartPilot <;> cases hap : g.approved <;>
    cases hfb : cfg.fallbackMessages.isEmpty <;>
    by_cases hpk : pickFallback cfg.fallbackMessages pick = "" <;>
    simp_all [List.isEmpty_iff, structuredGuidance_ne_empty]

/-- C9 amended witness: Smart Pilot off, rejected decision, one-message
pool — the tick sends exactly the picked fallback message. -/
theorem tick_guidance_characterization_witness :
    (tickOutcome cfgFallback gRej 0).1 = some "Keep going." := by
  have h := (tick_guidance_characterization cfgFallback gRej 0 rfl).1
  have hcond : (cfgFallback.smartPilot = false ∨ gRej.approved = false) ∧
      cfgFallback.fallbackMessages ≠ [] ∧ pickFallback cfgFallback.fallbackMessages 0 ≠ "" :=
    ⟨Or.inl rfl, by decide, by decide⟩
  rw [h, if_pos hcond]
  decide

end Loop
